/-
Verification of the upload/convert/poll orchestration logic of the
fixed-file-converter repository.

The JavaScript source is shallowly embedded:
- JS objects become Lean structures; absent/null/undefined fields become
  `Option`; JS string statuses stay `String` values compared with `==`.
- The JS `||` fallback on string-or-null values is `jsOrStr` (a JS empty
  string is falsy, so `some ""` falls through, as in the source).
- The in-memory `Map` stores (`jobs`, `uploads`) are association lists;
  `Map.set` is modelled by consing (the new binding shadows any old one,
  which is observationally equal for `Map.get`/`Map.has`).
- Handlers that await external HTTP results take those results as
  explicit `Except` arguments; a `.error` value models a rejected
  promise / thrown error reaching the surrounding `catch`.
-/
import Mathlib

namespace FileConverter

/-- JS truthiness of a string-or-null value: `null`, `undefined` and the
empty string are falsy. -/
def jsTruthy : Option String → Bool
  | none => false
  | some s => s ≠ ""

/-- JS `a || b` on string-or-null values. -/
def jsOrStr (a b : Option String) : Option String :=
  if jsTruthy a then a else b

/-! ## File validator (`src/utils/fileUtils.js`, `validateFile`) -/

/-- The `file` argument of `validateFile`: only `type` and `size` are read. -/
structure FileMeta where
  ftype : String
  size : Nat
  deriving DecidableEq, Repr

/-- Outcome of `validateFile`. The source returns
`{valid: true}` or `{valid: false, error: <message>}`; the three distinct
error return sites are modelled as constructors (the message text built
with `formatFileSize` involves floating point and is abstracted away;
the branch structure is exact). -/
inductive ValidateResult where
  | ok
  | noFile
  | typeNotAllowed
  | tooLarge
  deriving DecidableEq, Repr

/-- Default `maxSize` parameter of `validateFile`: 10 MiB. -/
def DEFAULT_MAX_SIZE : Nat := 10 * 1024 * 1024

/-- `validateFile(file, allowedTypes = [], maxSize = 10*1024*1024)` from
`src/utils/fileUtils.js` lines 214-236: null check, then type check
(only when the allow-list is nonempty), then size check. -/
def validateFile (file : Option FileMeta) (allowedTypes : List String)
    (maxSize : Nat) : ValidateResult :=
  match file with
  | none => .noFile
  | some f =>
    if allowedTypes.length > 0 && !(allowedTypes.contains f.ftype) then
      .typeNotAllowed
    else if f.size > maxSize then
      .tooLarge
    else
      .ok

/-! ## Remote (CloudConvert) job model

Only the fields the route handlers read are modelled; every field the
source reaches through optional chaining (`?.`) is an `Option`. -/

/-- One entry of `exportTask.result.files`. -/
structure RFile where
  url : Option String
  deriving DecidableEq, Repr

/-- `task.result.form` (read as `result?.form?.url`). -/
structure RForm where
  url : Option String
  deriving DecidableEq, Repr

/-- `task.result`, read as `result?.form?.url`, `result?.url` and
`result?.files?.[0]?.url`. -/
structure TaskResult where
  form : Option RForm := none
  url : Option String := none
  files : List RFile := []
  deriving DecidableEq, Repr

/-- A task of a remote CloudConvert job: the handlers read `operation`,
`status`, `message` and `result`. -/
structure RemoteTask where
  operation : String
  status : String
  message : Option String := none
  result : Option TaskResult := none
  deriving DecidableEq, Repr

/-- A remote CloudConvert job as read by the handlers: `id`, `status`
(one of `waiting`, `processing`, `finished`, `error`), `message`, `tasks`. -/
structure RemoteJob where
  id : String
  status : String
  message : Option String := none
  tasks : List RemoteTask
  deriving DecidableEq, Repr

/-- `job.tasks.find(task => task.operation === 'export/url')`. -/
def findExportTask (j : RemoteJob) : Option RemoteTask :=
  j.tasks.find? (fun t => t.operation == "export/url")

/-- `exportTask.result?.files?.[0]?.url`. -/
def firstFileUrl (t : RemoteTask) : Option String :=
  t.result.bind (fun r => r.files.head?.bind RFile.url)

/-- The status-mapping core of the `GET /api/cloudconvert` handler
(`src/unnamed/part_006` lines 110-121): starting from
`status = job.status; downloadUrl = null; error = null`, override with
`finished` (+ first artifact URL) when the export task finished, or with
`error` (+ message fallback chain) when the job or the export task
errored. Returns `(status, downloadUrl, error)`. -/
def mapRemote (job : RemoteJob) : String × Option String × Option String :=
  let exportTask := findExportTask job
  if exportTask.map RemoteTask.status == some "finished" then
    ("finished", exportTask.bind firstFileUrl, none)
  else if job.status == "error" || exportTask.map RemoteTask.status == some "error" then
    ("error", none,
      jsOrStr job.message
        (jsOrStr (exportTask.bind RemoteTask.message) (some "Conversion failed")))
  else
    (job.status, none, none)

/-! ## Local job store and the route handlers (`src/unnamed/part_006`) -/

/-- The record stored in the in-memory `jobs` map. `POST` writes
`{id, status, createdAt, file, targetFormat}`; `GET` spreads in
`status`, `updatedAt`, `downloadUrl`, `error`. Fields absent until then
are `none`. -/
structure JobInfo where
  id : String
  status : String
  createdAt : Nat
  fileName : String
  fileSize : Nat
  fileType : String
  targetFormat : String
  updatedAt : Option Nat := none
  downloadUrl : Option String := none
  error : Option String := none
  deriving DecidableEq, Repr

/-- The `jobs` map: association list, `set` = cons (shadowing). -/
def JobMap := List (String × JobInfo)

/-- JSON body of a route response; only the fields the handlers emit.
Error responses carry `success := false` and a message in `error`. -/
structure ConvResp where
  httpStatus : Nat
  success : Bool
  jobId : Option String := none
  uploadUrl : Option String := none
  status : Option String := none
  downloadUrl : Option String := none
  error : Option String := none
  deriving DecidableEq, Repr

/-- Request body of `POST /api/cloudconvert`: `file` metadata and
`targetFormat`. `none` models a body failing the
`if (!file || !targetFormat)` guard. -/
structure CreateReq where
  fileName : String
  fileSize : Nat
  fileType : String
  targetFormat : String
  deriving DecidableEq, Repr

/-- `job.tasks.filter(t => t.operation === 'import/upload')[0]`. -/
def findUploadTask (j : RemoteJob) : Option RemoteTask :=
  (j.tasks.filter (fun t => t.operation == "import/upload")).head?

/-- `uploadTask.result?.form?.url || uploadTask.result?.url`. -/
def uploadUrlOf (t : RemoteTask) : Option String :=
  jsOrStr (t.result.bind (fun r => r.form.bind RForm.url))
    (t.result.bind TaskResult.url)

/-- `POST /api/cloudconvert` (`src/unnamed/part_006` lines 10-83).
`create` is the awaited result of `cloudConvert.jobs.create(...)`
(`.error m` = rejected promise caught by the handler's `catch`);
`jobId` is the generated `job_..._...` identifier, `now` the clock.
On success the job is stored with status `uploading`; on any failure the
handler responds 500 and stores nothing. Accessing `.result` on a
missing upload task throws a TypeError in JS, which the same `catch`
turns into a 500 response. -/
def postConvert (jobs : JobMap) (create : Except String RemoteJob)
    (jobId : String) (now : Nat) (body : Option CreateReq) :
    JobMap × ConvResp :=
  match body with
  | none =>
    (jobs, { httpStatus := 400, success := false,
             error := some "Missing required parameters" })
  | some req =>
    match create with
    | .error m =>
      (jobs, { httpStatus := 500, success := false,
               error := jsOrStr (some m) (some "Failed to create conversion job") })
    | .ok job =>
      match findUploadTask job with
      | none =>
        -- JS: `uploadTask.result` on undefined throws; caught => 500.
        (jobs, { httpStatus := 500, success := false,
                 error := some "Cannot read properties of undefined" })
      | some ut =>
        let uploadUrl := uploadUrlOf ut
        if jsTruthy uploadUrl then
          ((jobId,
            { id := job.id, status := "uploading", createdAt := now,
              fileName := req.fileName, fileSize := req.fileSize,
              fileType := req.fileType,
              targetFormat := req.targetFormat }) :: jobs,
           { httpStatus := 200, success := true, jobId := some jobId,
             uploadUrl := uploadUrl })
        else
          -- `throw new Error('Failed to get upload URL')`, caught => 500.
          (jobs, { httpStatus := 500, success := false,
                   error := some "Failed to get upload URL" })

/-- `GET /api/cloudconvert` (`src/unnamed/part_006` lines 85-147).
`fetch` is `cloudConvert.jobs.get` keyed by the stored remote id
(`.error m` = rejection caught by the handler). On success the mapped
state is written back into the `jobs` map and echoed in the response. -/
def getConvert (jobs : JobMap) (fetch : String → Except String RemoteJob)
    (now : Nat) (jobIdParam : Option String) : JobMap × ConvResp :=
  if !(jsTruthy jobIdParam) then
    (jobs, { httpStatus := 400, success := false,
             error := some "Missing jobId parameter" })
  else
    let jobId := jobIdParam.getD ""
    match List.lookup jobId jobs with
    | none =>
      (jobs, { httpStatus := 404, success := false,
               error := some "Job not found" })
    | some jobInfo =>
      match fetch jobInfo.id with
      | .error m =>
        (jobs, { httpStatus := 500, success := false,
                 error := jsOrStr (some m) (some "Failed to get job status") })
      | .ok job =>
        let res := mapRemote job
        let updated : JobInfo :=
          { jobInfo with status := res.1, updatedAt := some now,
                         downloadUrl := res.2.1, error := res.2.2 }
        ((jobId, updated) :: jobs,
         { httpStatus := 200, success := true, status := some res.1,
           downloadUrl := res.2.1, error := res.2.2 })

/-! ## Remote evolution (provider contract)

The conversion provider is an external collaborator (spec section 6): its
job and task statuses range over `waiting | processing | finished |
error`, and `finished`/`error` are terminal on the provider side. Between
two polls the remote job may advance; the relation below captures exactly
that contract: a terminal job is frozen whole, a live job keeps its id
and task list shape, and each task, once terminal, is frozen. -/

/-- A provider-side status string is terminal. -/
def remoteTerminal (s : String) : Bool :=
  s == "finished" || s == "error"

/-- One task may evolve into another: operation names never change, and a
terminal task no longer changes at all. -/
def TaskEvolves (t t' : RemoteTask) : Prop :=
  t'.operation = t.operation ∧ (remoteTerminal t.status = true → t' = t)

/-- One observable provider step between polls. -/
def RemoteEvolves (r r' : RemoteJob) : Prop :=
  (remoteTerminal r.status = true → r' = r) ∧
  (remoteTerminal r.status = false →
    r'.id = r.id ∧ List.Forall₂ TaskEvolves r.tasks r'.tasks)

/-- Any number of provider steps between two polls. -/
def RemoteReach : RemoteJob → RemoteJob → Prop :=
  Relation.ReflTransGen RemoteEvolves

/-! ## Client poll loop
(`src/unnamed/part_002`, `handleConvert` lines 189-218 and
`convertFileWithCloudConvert` lines 620-654 — the two loops are
identical). -/

/-- Parsed JSON of one `GET /api/cloudconvert?jobId=...` response body. -/
structure StatusData where
  status : String
  downloadUrl : Option String := none
  error : Option String := none
  deriving DecidableEq, Repr

/-- How the `while` loop was left. -/
inductive LoopExit where
  /-- `status === 'finished'`: `break` with the reported `downloadUrl`. -/
  | finishedUrl (u : Option String)
  /-- a `throw` out of the loop (non-ok response or `status === 'error'`). -/
  | threw (m : String)
  /-- `attempts` reached `maxAttempts` without a terminal status. -/
  | exhausted
  deriving DecidableEq, Repr

/-- `maxAttempts = 60` in both poll loops. -/
def maxAttempts : Nat := 60

/-- The poll `while` loop. `resp i` is the `i`-th status response
(`.error m` = a non-ok HTTP response whose body carried message `m`,
rethrown by the loop); `fuel` is `maxAttempts - attempts`. Returns the
exit and the number of status requests issued. -/
def pollLoop (resp : Nat → Except (Option String) StatusData) :
    Nat → Nat → LoopExit × Nat
  | 0, _ => (.exhausted, 0)
  | fuel + 1, i =>
    match resp i with
    | .error m => (.threw ((jsOrStr m (some "Failed to get conversion status")).getD ""), 1)
    | .ok d =>
      if d.status == "finished" then
        (.finishedUrl d.downloadUrl, 1)
      else if d.status == "error" then
        (.threw ((jsOrStr d.error (some "Conversion failed")).getD ""), 1)
      else
        let r := pollLoop resp fuel (i + 1)
        (r.1, r.2 + 1)

/-- Outcome of one file's convert attempt, as seen by the surrounding
code: a download URL or a thrown error message. -/
inductive ConvertOutcome where
  | ok (url : String)
  | failed (m : String)
  deriving DecidableEq, Repr

/-- The poll phase of `handleConvert` / `convertFileWithCloudConvert`:
run the loop from `attempts = 0`, then `if (!downloadUrl) throw
new Error('Conversion timed out')` (JS: an absent or empty URL is falsy,
so `finished` with no URL is also reported as a timeout). Returns the
outcome and the number of status requests issued. -/
def runPollPhase (resp : Nat → Except (Option String) StatusData)
    (attemptCeiling : Nat) : ConvertOutcome × Nat :=
  match pollLoop resp attemptCeiling 0 with
  | (.finishedUrl u, k) =>
    if jsTruthy u then (.ok (u.getD ""), k)
    else (.failed "Conversion timed out", k)
  | (.threw m, k) => (.failed m, k)
  | (.exhausted, k) => (.failed "Conversion timed out", k)

/-! ## Batch loop (`src/unnamed/part_002`, `handleConvert` lines 141-251)

Each file's full create/upload/poll pipeline is the `convert` parameter;
a `.error` models the per-file `catch` branch (`setError`, continue). -/

/-- The `for (const file of selectedFiles)` loop: successes are pushed
onto `converted`, a failure sets the shared error message to
`Failed to convert <name>: <message>` (a later failure overwrites an
earlier one) and the loop continues with the next file. Returns
`(converted, lastError)`. -/
def batchLoop {α β : Type} (nameOf : α → String)
    (convert : α → Except String β) : List α → List β × Option String
  | [] => ([], none)
  | f :: rest =>
    match convert f with
    | .ok e =>
      let r := batchLoop nameOf convert rest
      (e :: r.1, r.2)
    | .error m =>
      let r := batchLoop nameOf convert rest
      (r.1, some (r.2.getD ("Failed to convert " ++ nameOf f ++ ": " ++ m)))

/-- `handleConvert` after the loop: `setConvertedFiles(converted)`, then
the summary `setError` when nothing or only part of the batch converted.
Returns the converted list and the final error message. -/
def handleConvertBatch {α β : Type} (nameOf : α → String)
    (convert : α → Except String β) (files : List α) :
    List β × Option String :=
  let r := batchLoop nameOf convert files
  if r.1.length == 0 then
    (r.1, some "Failed to convert any files. Please try again.")
  else if r.1.length < files.length then
    (r.1, some ("Successfully converted " ++ toString r.1.length ++ " of "
      ++ toString files.length ++ " files. Some files failed to convert."))
  else
    (r.1, r.2)

/-! ## Upload store (`src/unnamed/part_003`, lines 138-215) -/

/-- The uploaded file as read from the multipart form: name, MIME type,
declared size and raw bytes. -/
structure UploadBody where
  name : String
  ftype : String
  size : Nat
  data : List Nat
  deriving DecidableEq, Repr

/-- The record stored in the `uploads` map. -/
structure FileData where
  name : String
  ftype : String
  size : Nat
  data : List Nat
  uploadedAt : Nat
  deriving DecidableEq, Repr

/-- The `uploads` map: association list, `set` = cons (shadowing). -/
def UploadMap := List (String × FileData)

/-- Response of the upload `POST`. -/
structure UploadResp where
  httpStatus : Nat
  success : Bool
  id : Option String := none
  url : Option String := none
  name : Option String := none
  size : Option Nat := none
  ftype : Option String := none
  error : Option String := none
  deriving DecidableEq, Repr

/-- `POST` upload handler (`src/unnamed/part_003` lines 138-195):
reject a missing file with 400, otherwise store the bytes and metadata
under a fresh `uuidv4()` id (`fileId` parameter) and echo the metadata. -/
def uploadPost (uploads : UploadMap) (fileId : String) (now : Nat)
    (file : Option UploadBody) : UploadMap × UploadResp :=
  match file with
  | none =>
    (uploads, { httpStatus := 400, success := false,
                error := some "No file provided" })
  | some f =>
    ((fileId, { name := f.name, ftype := f.ftype, size := f.size,
                data := f.data, uploadedAt := now }) :: uploads,
     { httpStatus := 200, success := true, id := some fileId,
       url := some ("/api/files/" ++ fileId), name := some f.name,
       size := some f.size, ftype := some f.ftype })

/-- The raw-bytes response of the file-serving `GET`. -/
structure ServeResp where
  body : List Nat
  contentType : String
  filename : String
  contentLength : Nat
  deriving DecidableEq, Repr

/-- `GET` file handler (`src/unnamed/part_003` lines 198-215):
`if (!fileId || !uploads.has(fileId))` => 404 (`none`), else serve the
stored bytes with the stored metadata as headers. -/
def fileGet (uploads : UploadMap) (fileId : Option String) :
    Option ServeResp :=
  if !(jsTruthy fileId) then none
  else
    match List.lookup (fileId.getD "") uploads with
    | none => none
    | some fd =>
      some { body := fd.data, contentType := fd.ftype,
             filename := fd.name, contentLength := fd.size }

/-! ## Helper lemmas -/

/-- A `jsOrStr` chain ending in a nonempty literal yields a nonempty
message. -/
theorem jsOrStr_chain_nonempty (a b : Option String) (c : String)
    (hc : c ≠ "") :
    ∃ m, jsOrStr a (jsOrStr b (some c)) = some m ∧ m ≠ "" := by
  unfold jsOrStr jsTruthy
  rcases a with _ | sa
  · rcases b with _ | sb
    · exact ⟨c, by simp, hc⟩
    · by_cases hsb : sb = ""
      · exact ⟨c, by simp [hsb], hc⟩
      · exact ⟨sb, by simp [hsb], hsb⟩
  · by_cases hsa : sa = ""
    · rcases b with _ | sb
      · exact ⟨c, by simp [hsa], hc⟩
      · by_cases hsb : sb = ""
        · exact ⟨c, by simp [hsa, hsb], hc⟩
        · exact ⟨sb, by simp [hsa, hsb], hsb⟩
    · exact ⟨sa, by simp [hsa], hsa⟩

/-! ## C6: validator contract -/

/-- Counterexample to C6 as stated: this file's `sizeBytes` strictly
exceeds the configured 10 MiB maximum, yet `validateFile` does not
return the too-large error — the type check fires first, so the result
is the type-not-allowed error. -/
theorem c6_counterexample :
    validateFile (some ⟨"text/weird", 10 * 1024 * 1024 + 1⟩)
        ["application/pdf"] DEFAULT_MAX_SIZE = .typeNotAllowed ∧
    ValidateResult.typeNotAllowed ≠ ValidateResult.tooLarge := by
  decide

/-- C6 (amended): with a nonempty allow-list, a `mimeType` outside it
yields the type-not-allowed error; when the type check passes (type
allowed, or empty allow-list), a size strictly above the maximum yields
the too-large error; when both checks pass, validation succeeds.
`validateFile` is a pure function, hence deterministic. -/
theorem c6_validator_contract (f : FileMeta) (ts : List String) (m : Nat) :
    (ts ≠ [] → f.ftype ∉ ts → validateFile (some f) ts m = .typeNotAllowed) ∧
    ((ts = [] ∨ f.ftype ∈ ts) → f.size > m → validateFile (some f) ts m = .tooLarge) ∧
    ((ts = [] ∨ f.ftype ∈ ts) → f.size ≤ m → validateFile (some f) ts m = .ok) := by
  refine ⟨?_, ?_, ?_⟩
  · intro hne hmem
    have hlen : ts.length > 0 := List.length_pos.mpr hne
    simp [validateFile, hlen, hmem]
  · intro hpass hsize
    have : ¬(ts.length > 0 ∧ f.ftype ∉ ts) := by
      rcases hpass with h | h
      · simp [h]
      · simp [h]
    simp only [validateFile]
    rcases Nat.eq_zero_or_pos ts.length with hl | hl
    · simp [hl, hsize]
    · have hmem : f.ftype ∈ ts := by
        rcases hpass with h | h
        · exact absurd hl (by simp [h])
        · exact h
      simp [hl, hmem, hsize]
  · intro hpass hsize
    have hns : ¬(f.size > m) := Nat.not_lt.mpr hsize
    simp only [validateFile]
    rcases hpass with h | h
    · simp [h, hns]
    · rcases Nat.eq_zero_or_pos ts.length with hl | hl
      · simp [hl, hns]
      · simp [hl, h, hns]

/-- Witness for C6: each clause of the contract applied at a concrete
input. -/
theorem c6_validator_contract_witness :
    validateFile (some ⟨"application/zip", 3⟩) ["application/pdf"]
        DEFAULT_MAX_SIZE = .typeNotAllowed ∧
    validateFile (some ⟨"application/pdf", DEFAULT_MAX_SIZE + 1⟩)
        ["application/pdf"] DEFAULT_MAX_SIZE = .tooLarge ∧
    validateFile (some ⟨"application/pdf", 3⟩) ["application/pdf"]
        DEFAULT_MAX_SIZE = .ok :=
  ⟨(c6_validator_contract ⟨"application/zip", 3⟩ ["application/pdf"]
      DEFAULT_MAX_SIZE).1 (by decide) (by decide),
   (c6_validator_contract ⟨"application/pdf", DEFAULT_MAX_SIZE + 1⟩
      ["application/pdf"] DEFAULT_MAX_SIZE).2.1 (Or.inr (by decide)) (by decide),
   (c6_validator_contract ⟨"application/pdf", 3⟩ ["application/pdf"]
      DEFAULT_MAX_SIZE).2.2 (Or.inr (by decide)) (by decide)⟩

/-! ## C10: empty allow-list accepts every type -/

/-- C10: with an empty allowed-types list, `validateFile` never returns
the type-not-allowed error — every `mimeType` is accepted, and only the
size limit decides the outcome. -/
theorem c10_empty_allowlist_size_only (f : FileMeta) (m : Nat) :
    validateFile (some f) [] m ≠ .typeNotAllowed ∧
    validateFile (some f) [] m
      = (if f.size > m then .tooLarge else .ok) := by
  have hval : validateFile (some f) [] m
      = (if f.size > m then .tooLarge else .ok) := by
    simp [validateFile]
  refine ⟨?_, hval⟩
  rw [hval]
  split <;> decide

/-! ## C7: upload store round trip -/

/-- C7: storing a file and fetching it by the returned id serves
byte-identical content with the stored name, MIME type and size. -/
theorem c7_store_get_roundtrip (uploads : UploadMap) (fileId : String)
    (now : Nat) (f : UploadBody) (h : fileId ≠ "") :
    fileGet (uploadPost uploads fileId now (some f)).1 (some fileId)
      = some { body := f.data, contentType := f.ftype,
               filename := f.name, contentLength := f.size } := by
  simp [uploadPost, fileGet, jsTruthy, h, List.lookup]

/-- Witness for C7 at a concrete two-byte `text/plain` file. -/
theorem c7_store_get_roundtrip_witness :
    fileGet (uploadPost [] "f1" 0
        (some ⟨"a.txt", "text/plain", 2, [104, 105]⟩)).1 (some "f1")
      = some ⟨[104, 105], "text/plain", "a.txt", 2⟩ :=
  c7_store_get_roundtrip [] "f1" 0 ⟨"a.txt", "text/plain", 2, [104, 105]⟩
    (by decide)

/-! ## C2: remote-status mapping of pollStatus -/

/-- Counterexample to C2 as stated: a job whose remote state is
`waiting` (export task also still waiting) is reported with local
status `waiting`, not `processing` — the handler passes the remote
status through verbatim. -/
theorem c2_counterexample :
    (mapRemote ⟨"rj", "waiting", none,
        [⟨"import/upload", "waiting", none, none⟩,
         ⟨"convert", "waiting", none, none⟩,
         ⟨"export/url", "waiting", none, none⟩]⟩).1 = "waiting" ∧
    ("waiting" : String) ≠ "processing" := by
  decide

/-- C2 (amended): when the export task reports `finished`, the local
status is `finished` and `resultUrl` is the first result artifact's URL;
when the job or export task reports `error` (and the export task is not
finished), the local status is `error` with a nonempty message; in all
other cases the remote job status is passed through verbatim (so remote
`waiting` stays `waiting` and remote `processing` stays `processing`). -/
theorem c2_status_mapping (r : RemoteJob) :
    ((findExportTask r).map RemoteTask.status = some "finished" →
      mapRemote r = ("finished", (findExportTask r).bind firstFileUrl, none)) ∧
    ((findExportTask r).map RemoteTask.status ≠ some "finished" →
      r.status = "error" ∨ (findExportTask r).map RemoteTask.status = some "error" →
      (mapRemote r).1 = "error" ∧ (mapRemote r).2.1 = none ∧
        ∃ m, (mapRemote r).2.2 = some m ∧ m ≠ "") ∧
    ((findExportTask r).map RemoteTask.status ≠ some "finished" →
      r.status ≠ "error" →
      (findExportTask r).map RemoteTask.status ≠ some "error" →
      mapRemote r = (r.status, none, none)) := by
  refine ⟨?_, ?_, ?_⟩
  · intro h
    simp [mapRemote, h]
  · intro h1 h2
    have hm : mapRemote r = ("error", none,
        jsOrStr r.message
          (jsOrStr ((findExportTask r).bind RemoteTask.message)
            (some "Conversion failed"))) := by
      rcases h2 with h2 | h2 <;> simp [mapRemote, h1, h2]
    rw [hm]
    obtain ⟨m, hm2, hne⟩ := jsOrStr_chain_nonempty r.message
      ((findExportTask r).bind RemoteTask.message) "Conversion failed"
      (by decide)
    exact ⟨rfl, rfl, m, hm2, hne⟩
  · intro h1 h2 h3
    simp [mapRemote, h1, h2, h3]

/-- Witness for C2: each clause applied at a concrete remote job. -/
theorem c2_status_mapping_witness :
    mapRemote ⟨"rj", "processing", none,
        [⟨"export/url", "finished", none,
          some ⟨none, none, [⟨some "https://s/a.docx"⟩]⟩⟩]⟩
      = ("finished", some "https://s/a.docx", none) ∧
    ((mapRemote ⟨"rj", "error", some "Invalid input", []⟩).1 = "error" ∧
      (mapRemote ⟨"rj", "error", some "Invalid input", []⟩).2.1 = none ∧
      ∃ m, (mapRemote ⟨"rj", "error", some "Invalid input", []⟩).2.2
        = some m ∧ m ≠ "") ∧
    mapRemote ⟨"rj", "waiting", none,
        [⟨"export/url", "waiting", none, none⟩]⟩
      = ("waiting", none, none) := by
  refine ⟨?_, ?_, ?_⟩
  · have := (c2_status_mapping ⟨"rj", "processing", none,
        [⟨"export/url", "finished", none,
          some ⟨none, none, [⟨some "https://s/a.docx"⟩]⟩⟩]⟩).1 (by decide)
    rw [this]
    decide
  · exact (c2_status_mapping ⟨"rj", "error", some "Invalid input", []⟩).2.1
      (by decide) (Or.inl rfl)
  · exact (c2_status_mapping ⟨"rj", "waiting", none,
        [⟨"export/url", "waiting", none, none⟩]⟩).2.2
      (by decide) (by decide) (by decide)

/-! ## C9: terminal-field mutual exclusion -/

/-- Counterexample to C9 as stated: a remote job whose export task
reports `finished` but carries no result files is mapped to local status
`finished` with neither `resultUrl` nor `errorMessage` set — so in a
terminal state neither of the two fields is populated. -/
theorem c9_counterexample :
    (mapRemote ⟨"rj", "processing", none,
        [⟨"export/url", "finished", none, none⟩]⟩).1 = "finished" ∧
    (mapRemote ⟨"rj", "processing", none,
        [⟨"export/url", "finished", none, none⟩]⟩).2.1 = none ∧
    (mapRemote ⟨"rj", "processing", none,
        [⟨"export/url", "finished", none, none⟩]⟩).2.2 = none := by
  decide

/-- C9 (amended): `downloadUrl` and `error` are never both set; when the
reported status is `error`, the error message is set (nonempty) and
`downloadUrl` is null; when the reported status is `finished`, the error
message is null — but `downloadUrl` may also be null when the finished
export task carries no artifact URL. -/
theorem c9_terminal_fields (r : RemoteJob) :
    ((mapRemote r).2.1 = none ∨ (mapRemote r).2.2 = none) ∧
    ((mapRemote r).1 = "error" →
      (mapRemote r).2.1 = none ∧
      ∃ m, (mapRemote r).2.2 = some m ∧ m ≠ "") ∧
    ((mapRemote r).1 = "finished" → (mapRemote r).2.2 = none) := by
  by_cases h1 : (findExportTask r).map RemoteTask.status = some "finished"
  · have hm : mapRemote r
        = ("finished", (findExportTask r).bind firstFileUrl, none) := by
      simp [mapRemote, h1]
    rw [hm]
    exact ⟨Or.inr rfl,
      fun h => absurd (show ("finished" : String) = "error" from h) (by decide),
      fun _ => rfl⟩
  · by_cases h2 : r.status = "error" ∨
        (findExportTask r).map RemoteTask.status = some "error"
    · have hm : mapRemote r = ("error", none,
          jsOrStr r.message
            (jsOrStr ((findExportTask r).bind RemoteTask.message)
              (some "Conversion failed"))) := by
        rcases h2 with h2 | h2 <;> simp [mapRemote, h1, h2]
      rw [hm]
      obtain ⟨m, hm2, hne⟩ := jsOrStr_chain_nonempty r.message
        ((findExportTask r).bind RemoteTask.message) "Conversion failed"
        (by decide)
      exact ⟨Or.inl rfl, fun _ => ⟨rfl, m, hm2, hne⟩,
        fun h => absurd (show ("error" : String) = "finished" from h) (by decide)⟩
    · push_neg at h2
      have hm : mapRemote r = (r.status, none, none) := by
        simp [mapRemote, h1, h2.1, h2.2]
      rw [hm]
      exact ⟨Or.inl rfl, fun h => absurd h h2.1, fun _ => rfl⟩

/-- Witness for C9: the implications applied at concrete remote jobs. -/
theorem c9_terminal_fields_witness :
    ((mapRemote ⟨"rj", "error", none, []⟩).2.1 = none ∧
      ∃ m, (mapRemote ⟨"rj", "error", none, []⟩).2.2 = some m ∧ m ≠ "") ∧
    (mapRemote ⟨"rj", "processing", none,
        [⟨"export/url", "finished", none,
          some ⟨none, none, [⟨some "https://s/b.pdf"⟩]⟩⟩]⟩).2.2 = none :=
  ⟨(c9_terminal_fields ⟨"rj", "error", none, []⟩).2.1 (by decide),
   (c9_terminal_fields ⟨"rj", "processing", none,
      [⟨"export/url", "finished", none,
        some ⟨none, none, [⟨some "https://s/b.pdf"⟩]⟩⟩]⟩).2.2 (by decide)⟩

/-! ## C3: createJob failure policy -/

/-- Counterexample to C3 as stated: when remote job registration fails,
the `POST` handler responds with a request-level 500 error and records
no job at all — the claimed `error`-status job record does not exist. -/
theorem c3_counterexample :
    (postConvert [] (.error "connection refused") "job_1" 0
        (some ⟨"a.pdf", 2048, "application/pdf", "docx"⟩)).2
      = { httpStatus := 500, success := false,
          error := some "connection refused" } ∧
    List.lookup "job_1"
      (postConvert [] (.error "connection refused") "job_1" 0
        (some ⟨"a.pdf", 2048, "application/pdf", "docx"⟩)).1 = none := by
  decide

/-- C3 (amended): a failure during remote job registration or pipeline
setup makes `POST` return a request-level 500 error (`success: false`)
and leave the job map unchanged; a subsequent `pollStatus` for the
(unrecorded) jobId returns 404 `Job not found` rather than a job record. -/
theorem c3_create_failure_policy (jobs : JobMap) (m jobId : String)
    (now t : Nat) (req : CreateReq)
    (fetch : String → Except String RemoteJob)
    (habs : List.lookup jobId jobs = none) (hjid : jobId ≠ "") :
    (postConvert jobs (.error m) jobId now (some req)).1 = jobs ∧
    (postConvert jobs (.error m) jobId now (some req)).2.httpStatus = 500 ∧
    (postConvert jobs (.error m) jobId now (some req)).2.success = false ∧
    getConvert jobs fetch t (some jobId)
      = (jobs, { httpStatus := 404, success := false,
                 error := some "Job not found" }) := by
  refine ⟨rfl, rfl, rfl, ?_⟩
  simp [getConvert, jsTruthy, hjid, habs]

/-- Witness for C3 at a concrete failing creation. -/
theorem c3_create_failure_policy_witness :
    (postConvert [] (.error "boom") "job_9" 5
        (some ⟨"b.txt", 10, "text/plain", "pdf"⟩)).1 = [] ∧
    (postConvert [] (.error "boom") "job_9" 5
        (some ⟨"b.txt", 10, "text/plain", "pdf"⟩)).2.httpStatus = 500 ∧
    (postConvert [] (.error "boom") "job_9" 5
        (some ⟨"b.txt", 10, "text/plain", "pdf"⟩)).2.success = false ∧
    getConvert [] (fun _ => .error "offline") 6 (some "job_9")
      = ([], { httpStatus := 404, success := false,
               error := some "Job not found" }) :=
  c3_create_failure_policy [] "boom" "job_9" 5 6
    ⟨"b.txt", 10, "text/plain", "pdf"⟩ (fun _ => .error "offline")
    rfl (by decide)

/-! ## C8: pollStatus idempotence -/

/-- The record written back by `GET` for a looked-up job `j`, remote
state `r` and clock `t` (abbreviates the update in `getConvert`). -/
def pollUpdate (j : JobInfo) (r : RemoteJob) (t : Nat) : JobInfo :=
  { j with
      status := (mapRemote r).1
      updatedAt := some t
      downloadUrl := (mapRemote r).2.1
      error := (mapRemote r).2.2 }

/-- The response body emitted by `GET` on a successful poll of remote
state `r`. -/
def pollResp (r : RemoteJob) : ConvResp :=
  { httpStatus := 200, success := true, status := some (mapRemote r).1,
    downloadUrl := (mapRemote r).2.1, error := (mapRemote r).2.2 }

/-- C8: with no intervening remote change (`fetch` returns the same
remote job), two successive `pollStatus` calls produce identical
responses, and the stored job record after the second call equals the
record after the first with only `updatedAt` changed. -/
theorem c8_pollstatus_idempotent (jobs : JobMap)
    (fetch : String → Except String RemoteJob) (t1 t2 : Nat)
    (jid : String) (j : JobInfo) (r : RemoteJob)
    (hjid : jid ≠ "") (hlook : List.lookup jid jobs = some j)
    (hfetch : fetch j.id = .ok r) :
    (getConvert (getConvert jobs fetch t1 (some jid)).1 fetch t2
        (some jid)).2
      = (getConvert jobs fetch t1 (some jid)).2 ∧
    ∃ rec,
      List.lookup jid (getConvert jobs fetch t1 (some jid)).1 = some rec ∧
      List.lookup jid
          (getConvert (getConvert jobs fetch t1 (some jid)).1 fetch t2
            (some jid)).1
        = some { rec with updatedAt := some t2 } := by
  have h1 : getConvert jobs fetch t1 (some jid)
      = ((jid, pollUpdate j r t1) :: jobs, pollResp r) := by
    simp [getConvert, jsTruthy, hjid, hlook, hfetch, pollUpdate, pollResp]
  have hid : (pollUpdate j r t1).id = j.id := rfl
  have h2 : getConvert (getConvert jobs fetch t1 (some jid)).1 fetch t2
      (some jid)
      = ((jid, pollUpdate (pollUpdate j r t1) r t2)
           :: (getConvert jobs fetch t1 (some jid)).1, pollResp r) := by
    rw [h1]
    simp [getConvert, jsTruthy, hjid, List.lookup, hid, hfetch,
      pollUpdate, pollResp]
  have hsame : pollUpdate (pollUpdate j r t1) r t2
      = { pollUpdate j r t1 with updatedAt := some t2 } := rfl
  refine ⟨by rw [h2, h1], pollUpdate j r t1, ?_, ?_⟩
  · rw [h1]
    simp [List.lookup]
  · rw [h2, hsame]
    simp [List.lookup]

/-- Witness for C8: a tracked job polled twice against an unchanged
remote in `processing` state. -/
theorem c8_pollstatus_idempotent_witness :
    (getConvert
        (getConvert
          [("job_1", ⟨"cc_1", "uploading", 0, "a.pdf", 2048,
            "application/pdf", "docx", none, none, none⟩)]
          (fun _ => .ok ⟨"cc_1", "processing", none, []⟩) 1
          (some "job_1")).1
        (fun _ => .ok ⟨"cc_1", "processing", none, []⟩) 2
        (some "job_1")).2
      = (getConvert
          [("job_1", ⟨"cc_1", "uploading", 0, "a.pdf", 2048,
            "application/pdf", "docx", none, none, none⟩)]
          (fun _ => .ok ⟨"cc_1", "processing", none, []⟩) 1
          (some "job_1")).2 ∧
    ∃ rec,
      List.lookup "job_1"
          (getConvert
            [("job_1", ⟨"cc_1", "uploading", 0, "a.pdf", 2048,
              "application/pdf", "docx", none, none, none⟩)]
            (fun _ => .ok ⟨"cc_1", "processing", none, []⟩) 1
            (some "job_1")).1 = some rec ∧
      List.lookup "job_1"
          (getConvert
            (getConvert
              [("job_1", ⟨"cc_1", "uploading", 0, "a.pdf", 2048,
                "application/pdf", "docx", none, none, none⟩)]
              (fun _ => .ok ⟨"cc_1", "processing", none, []⟩) 1
              (some "job_1")).1
            (fun _ => .ok ⟨"cc_1", "processing", none, []⟩) 2
            (some "job_1")).1
        = some { rec with updatedAt := some 2 } :=
  c8_pollstatus_idempotent
    [("job_1", ⟨"cc_1", "uploading", 0, "a.pdf", 2048,
      "application/pdf", "docx", none, none, none⟩)]
    (fun _ => .ok ⟨"cc_1", "processing", none, []⟩) 1 2 "job_1"
    ⟨"cc_1", "uploading", 0, "a.pdf", 2048, "application/pdf", "docx",
      none, none, none⟩
    ⟨"cc_1", "processing", none, []⟩
    (by decide) (by decide) rfl

/-! ## C4: poll-loop ceiling -/

/-- If every response in the window is an ok, non-terminal status, the
`while` loop runs out of attempts, issuing exactly `fuel` requests. -/
theorem pollLoop_nonterminal (resp : Nat → Except (Option String) StatusData)
    (fuel i : Nat)
    (h : ∀ k, i ≤ k → k < i + fuel →
      ∃ d, resp k = .ok d ∧ d.status ≠ "finished" ∧ d.status ≠ "error") :
    pollLoop resp fuel i = (.exhausted, fuel) := by
  induction fuel generalizing i with
  | zero => rfl
  | succ n ih =>
    obtain ⟨d, hr, hf, he⟩ := h i (Nat.le_refl i) (by omega)
    have hrec := ih (i + 1) (fun k hk1 hk2 => h k (by omega) (by omega))
    simp [pollLoop, hr, hf, he, hrec]

/-- C4: for a job that never reaches a terminal status, the client poll
loop issues exactly `maxAttempts` (= 60) status requests and then fails
with the timeout error, issuing no further requests (the request count
of the whole phase is `maxAttempts`). -/
theorem c4_poll_ceiling (resp : Nat → Except (Option String) StatusData)
    (h : ∀ k, k < maxAttempts →
      ∃ d, resp k = .ok d ∧ d.status ≠ "finished" ∧ d.status ≠ "error") :
    runPollPhase resp maxAttempts
      = (.failed "Conversion timed out", maxAttempts) := by
  have hrun := pollLoop_nonterminal resp maxAttempts 0
    (fun k _ hk2 => h k (by omega))
  simp [runPollPhase, hrun]

/-- Witness for C4: a remote that answers `processing` forever. -/
theorem c4_poll_ceiling_witness :
    runPollPhase (fun _ => .ok ⟨"processing", none, none⟩) maxAttempts
      = (.failed "Conversion timed out", maxAttempts) :=
  c4_poll_ceiling (fun _ => .ok ⟨"processing", none, none⟩)
    (fun k _ => ⟨⟨"processing", none, none⟩, rfl, by decide, by decide⟩)

/-! ## C5: batch isolation and completeness -/

/-- Counterexample to C5 as stated: a batch of 2 files in which file 1
fails upload produces a batch result with 1 entry, not 2 — failed files
leave no entry in the result. -/
theorem c5_counterexample :
    (handleConvertBatch (fun n => toString n)
        (fun n => if n == 1 then Except.error "Failed to upload file"
                  else Except.ok n) [1, 2]).1.length = 1 ∧
    (handleConvertBatch (fun n => toString n)
        (fun n => if n == 1 then Except.error "Failed to upload file"
                  else Except.ok n) [1, 2]).1.length ≠ 2 := by
  decide

/-- C5 (amended): per-file failures do not abort sibling files — every
file in the batch is still converted independently and each successful
file's entry appears in the result, in order; but the batch result
contains exactly the successful entries (N minus the failures), not N
entries. -/
theorem c5_batch_isolation {α β : Type} (nameOf : α → String)
    (convert : α → Except String β) (files : List α) :
    (batchLoop nameOf convert files).1
      = files.filterMap (fun f => (convert f).toOption) ∧
    (handleConvertBatch nameOf convert files).1
      = files.filterMap (fun f => (convert f).toOption) := by
  have h : (batchLoop nameOf convert files).1
      = files.filterMap (fun f => (convert f).toOption) := by
    induction files with
    | nil => rfl
    | cons f rest ih =>
      cases hc : convert f <;>
        simp [batchLoop, hc, List.filterMap_cons, ih, Except.toOption]
  have h2 : (handleConvertBatch nameOf convert files).1
      = (batchLoop nameOf convert files).1 := by
    unfold handleConvertBatch
    dsimp only
    split
    · rfl
    · split <;> rfl
  exact ⟨h, h2.trans h⟩

/-! ## C1: terminal-state invariant -/

/-- `remoteTerminal s = false` unpacked. -/
theorem remoteTerminal_false (s : String) (h : remoteTerminal s = false) :
    s ≠ "finished" ∧ s ≠ "error" := by
  unfold remoteTerminal at h
  constructor <;> intro he <;> simp [he] at h

/-- Under pointwise task evolution, the export-task lookup either fails
on both sides or returns related tasks on both sides. -/
theorem find_export_evolves {ts ts' : List RemoteTask}
    (h : List.Forall₂ TaskEvolves ts ts') :
    (ts.find? (fun t => t.operation == "export/url") = none ∧
     ts'.find? (fun t => t.operation == "export/url") = none) ∨
    (∃ t t', ts.find? (fun t => t.operation == "export/url") = some t ∧
      ts'.find? (fun t => t.operation == "export/url") = some t' ∧
      TaskEvolves t t') := by
  induction h with
  | nil => exact Or.inl ⟨rfl, rfl⟩
  | @cons a b l₁ l₂ hab htl ih =>
    by_cases hop : a.operation = "export/url"
    · have hop' : b.operation = "export/url" := hab.1.trans hop
      exact Or.inr ⟨a, b, by simp [List.find?, hop], by simp [List.find?, hop'], hab⟩
    · have hopb : (a.operation == "export/url") = false := by
        simp [hop]
      have hopb' : (b.operation == "export/url") = false := by
        simp [hab.1, hop]
      rcases ih with ⟨h1, h2⟩ | ⟨t, t', h1, h2, h3⟩
      · exact Or.inl ⟨by simp [List.find?, hopb, h1],
          by simp [List.find?, hopb', h2]⟩
      · exact Or.inr ⟨t, t', by simp [List.find?, hopb, h1],
          by simp [List.find?, hopb', h2], h3⟩

/-- One provider step preserves a terminal reported status, and
preserves the whole reported record when the reported status is
`finished`. -/
theorem mapRemote_step (r r' : RemoteJob) (h : RemoteEvolves r r') :
    (remoteTerminal (mapRemote r).1 = true →
      (mapRemote r').1 = (mapRemote r).1) ∧
    ((mapRemote r).1 = "finished" → mapRemote r' = mapRemote r) := by
  by_cases hterm : remoteTerminal r.status = true
  · have : r' = r := h.1 hterm
    subst this
    exact ⟨fun _ => rfl, fun _ => rfl⟩
  · have hB : remoteTerminal r.status = false := by
      cases hh : remoteTerminal r.status
      · rfl
      · exact absurd hh hterm
    obtain ⟨hnf, hne⟩ := remoteTerminal_false r.status hB
    obtain ⟨hid, htasks⟩ := h.2 hB
    rcases find_export_evolves htasks with ⟨h1, h1'⟩ | ⟨t, t', h1, h1', hev⟩
    · -- no export task: the local status is the (non-terminal) remote
      -- status, so both hypotheses are vacuous.
      have hm : mapRemote r = (r.status, none, none) := by
        simp [mapRemote, findExportTask, h1, hne]
      rw [hm]
      refine ⟨fun hc => absurd hc ?_, fun hc => absurd hc hnf⟩
      simp [hB]
    · by_cases htf : t.status = "finished"
      · -- finished export task is frozen: same record on both sides.
        have ht' : t' = t := hev.2 (by simp [remoteTerminal, htf])
        have hm : mapRemote r = ("finished", firstFileUrl t, none) := by
          simp [mapRemote, findExportTask, h1, htf]
        have hm' : mapRemote r' = ("finished", firstFileUrl t, none) := by
          simp [mapRemote, findExportTask, h1', ht', htf]
        rw [hm, hm']
        exact ⟨fun _ => rfl, fun _ => rfl⟩
      · by_cases hte : t.status = "error"
        · -- errored export task is frozen: status stays `error`.
          have ht' : t' = t := hev.2 (by simp [remoteTerminal, hte])
          have hm1 : (mapRemote r).1 = "error" := by
            simp [mapRemote, findExportTask, h1, htf, hte]
          have hm1' : (mapRemote r').1 = "error" := by
            simp [mapRemote, findExportTask, h1', ht', htf, hte]
          refine ⟨fun _ => hm1'.trans hm1.symm, fun hc => absurd (hm1 ▸ hc) ?_⟩
          decide
        · -- live export task, live job: the local status is the
          -- (non-terminal) remote status, hypotheses vacuous.
          have hm : mapRemote r = (r.status, none, none) := by
            simp [mapRemote, findExportTask, h1, htf, hte, hne]
          rw [hm]
          refine ⟨fun hc => absurd hc ?_, fun hc => absurd hc hnf⟩
          simp [hB]

/-- Any number of provider steps preserves a terminal reported status,
and preserves the whole reported record when the report was `finished`. -/
theorem mapRemote_reach_terminal (r r' : RemoteJob) (h : RemoteReach r r')
    (ht : remoteTerminal (mapRemote r).1 = true) :
    (mapRemote r').1 = (mapRemote r).1 ∧
    ((mapRemote r).1 = "finished" → mapRemote r' = mapRemote r) := by
  induction h with
  | refl => exact ⟨rfl, fun _ => rfl⟩
  | tail hs hstep ih =>
    rename_i b c
    obtain ⟨ihs, ihf⟩ := ih
    have hbt : remoteTerminal (mapRemote b).1 = true := by
      rw [ihs]; exact ht
    obtain ⟨s1, s2⟩ := mapRemote_step b c hstep
    refine ⟨(s1 hbt).trans ihs, fun hf => ?_⟩
    exact (s2 (ihs.trans hf)).trans (ihf hf)

/-- Whenever the reported status is `error`, the reported record has a
null download URL and a nonempty error message. -/
theorem mapRemote_error_fields (r : RemoteJob)
    (h : (mapRemote r).1 = "error") :
    (mapRemote r).2.1 = none ∧
    ∃ m, (mapRemote r).2.2 = some m ∧ m ≠ "" := by
  by_cases h1 : (findExportTask r).map RemoteTask.status = some "finished"
  · have hm : mapRemote r
        = ("finished", (findExportTask r).bind firstFileUrl, none) := by
      simp [mapRemote, h1]
    rw [hm] at h
    exact absurd (show ("finished" : String) = "error" from h) (by decide)
  · by_cases h2 : r.status = "error" ∨
        (findExportTask r).map RemoteTask.status = some "error"
    · have hm : mapRemote r = ("error", none,
          jsOrStr r.message
            (jsOrStr ((findExportTask r).bind RemoteTask.message)
              (some "Conversion failed"))) := by
        rcases h2 with h2 | h2 <;> simp [mapRemote, h1, h2]
      rw [hm]
      exact ⟨rfl, jsOrStr_chain_nonempty _ _ _ (by decide)⟩
    · push_neg at h2
      have hm : mapRemote r = (r.status, none, none) := by
        simp [mapRemote, h1, h2.1, h2.2]
      rw [hm] at h
      exact absurd h h2.1

/-- Counterexample to C1 as stated: after an `error` report the later
poll need not return the same terminal record. Here the export task has
errored (message `task failed`) while the remote job is still
`processing`, so the first poll reports `("error", null, "task failed")`;
one provider step later the job itself is `error` with message
`job died` (the errored task frozen unchanged), and the poll reports
`("error", null, "job died")` — same terminal status, different record. -/
theorem c1_counterexample :
    RemoteReach
      ⟨"rj", "processing", none,
        [⟨"export/url", "error", some "task failed", none⟩]⟩
      ⟨"rj", "error", some "job died",
        [⟨"export/url", "error", some "task failed", none⟩]⟩ ∧
    mapRemote ⟨"rj", "processing", none,
        [⟨"export/url", "error", some "task failed", none⟩]⟩
      = ("error", none, some "task failed") ∧
    mapRemote ⟨"rj", "error", some "job died",
        [⟨"export/url", "error", some "task failed", none⟩]⟩
      = ("error", none, some "job died") ∧
    (("error", none, some "task failed") :
        String × Option String × Option String)
      ≠ ("error", none, some "job died") := by
  refine ⟨Relation.ReflTransGen.single
    ⟨fun hc => absurd hc (by decide), fun _ => ⟨rfl, ?_⟩⟩,
    by decide, by decide, by decide⟩
  exact List.Forall₂.cons ⟨rfl, fun _ => rfl⟩ List.Forall₂.nil

/-- C1 (amended): once `pollStatus` has reported a terminal status
(`finished` or `error`), any later poll — after any number of provider
steps, where the provider's terminal job and task states are frozen —
reports the same terminal status. After a `finished` report the whole
reported record (status, resultUrl, errorMessage) is unchanged; after an
`error` report the later record still has status `error`, a null
resultUrl and a nonempty errorMessage, but the message text may change
(it is recomputed from `job.message || exportTask?.message || ...` at
every poll). -/
theorem c1_terminal_invariant (r r' : RemoteJob) (h : RemoteReach r r')
    (ht : remoteTerminal (mapRemote r).1 = true) :
    (mapRemote r').1 = (mapRemote r).1 ∧
    ((mapRemote r).1 = "finished" → mapRemote r' = mapRemote r) ∧
    ((mapRemote r).1 = "error" →
      (mapRemote r').2.1 = none ∧
      ∃ m, (mapRemote r').2.2 = some m ∧ m ≠ "") := by
  obtain ⟨hstat, hfin⟩ := mapRemote_reach_terminal r r' h ht
  refine ⟨hstat, hfin, fun he => ?_⟩
  exact mapRemote_error_fields r' (hstat.trans he)

/-- Witness for C1: the errored export task of the counterexample pair,
polled again after the job itself has died. -/
theorem c1_terminal_invariant_witness :
    (mapRemote ⟨"rj", "error", some "job died",
        [⟨"export/url", "error", some "task failed", none⟩]⟩).1
      = (mapRemote ⟨"rj", "processing", none,
        [⟨"export/url", "error", some "task failed", none⟩]⟩).1 ∧
    ((mapRemote ⟨"rj", "processing", none,
        [⟨"export/url", "error", some "task failed", none⟩]⟩).1
        = "finished" →
      mapRemote ⟨"rj", "error", some "job died",
        [⟨"export/url", "error", some "task failed", none⟩]⟩
        = mapRemote ⟨"rj", "processing", none,
          [⟨"export/url", "error", some "task failed", none⟩]⟩) ∧
    ((mapRemote ⟨"rj", "processing", none,
        [⟨"export/url", "error", some "task failed", none⟩]⟩).1
        = "error" →
      (mapRemote ⟨"rj", "error", some "job died",
        [⟨"export/url", "error", some "task failed", none⟩]⟩).2.1 = none ∧
      ∃ m, (mapRemote ⟨"rj", "error", some "job died",
        [⟨"export/url", "error", some "task failed", none⟩]⟩).2.2
          = some m ∧ m ≠ "") :=
  c1_terminal_invariant
    ⟨"rj", "processing", none,
      [⟨"export/url", "error", some "task failed", none⟩]⟩
    ⟨"rj", "error", some "job died",
      [⟨"export/url", "error", some "task failed", none⟩]⟩
    (Relation.ReflTransGen.single
      ⟨fun hc => absurd hc (by decide),
       fun _ => ⟨rfl, List.Forall₂.cons ⟨rfl, fun _ => rfl⟩ List.Forall₂.nil⟩⟩)
    (by decide)

end FileConverter
